import Mathlib

/-!
Verification development for the Spark server routes (src/server/routes/apify.ts).

The four core components of the spec are shallowly embedded here:

* CatalogMerger  — `listActors` (merge of owned/accessible listings plus
  curated "popular actor" enrichment);
* SchemaResolver — `getActorSchema` (ordered probe cascade);
* SchemaSynthesizer — `synthProperty` / `schemaFromExample` / `fallbackSchema`;
* RunExecutor    — `executeActor` (submit, bounded poll loop, dataset fetch).

Network effects are modelled by passing each endpoint's outcome explicitly as a
`FetchResult` value: `exc` is a thrown/rejected fetch (a network-level
exception), `notOk s` is an HTTP response with non-success status `s`
(`response.ok` false), and `ok a` is a successful response whose parsed JSON
payload is `a`.  JSON values are modelled by the closed inductive `JVal`.
Wall-clock time in the poll loop is idealized: network calls take no modelled
time and each loop iteration advances the clock by exactly the fixed sleep
interval (2000 ms), so the 60000 ms ceiling admits exactly 30 iterations.
Response-envelope fields that the error paths fill with an empty object
(`run: {} as any`) are modelled as `none`, and `statusText` strings are
dropped from error messages (only the numeric status is carried).
-/

namespace Spark

/-- A JSON value, the closed domain of dataset items, example-run inputs and
schema literal fields (spec §9: a tagged union of string, number, boolean,
sequence, nested mapping, null).  Numbers are modelled as integers; no code
path inspected here does arithmetic on fractional payload values. -/
inductive JVal where
  | str : String → JVal
  | num : Int → JVal
  | bool : Bool → JVal
  | arr : List JVal → JVal
  | obj : List (String × JVal) → JVal
  | null : JVal

/-- Outcome of one `fetch` call: a thrown exception (network failure / rejected
promise), a response with `ok === false` carrying its numeric HTTP status, or
an `ok` response with parsed payload `α`. -/
inductive FetchResult (α : Type) where
  | exc : FetchResult α
  | notOk : Nat → FetchResult α
  | ok : α → FetchResult α
deriving DecidableEq

/-- Whether the fetch returned a response with a non-success status
(`response.ok === false`, without throwing). -/
def FetchResult.isNotOk {α : Type} : FetchResult α → Bool
  | .notOk _ => true
  | _ => false

/-- Whether the fetch returned a successful (`response.ok`) response. -/
def FetchResult.isOk {α : Type} : FetchResult α → Bool
  | .ok _ => true
  | _ => false

/-- Run-count statistics carried by an actor record (shared/api.ts `stats`). -/
structure ActorStats where
  totalRuns : Nat
deriving DecidableEq

/-- An actor record as in shared/api.ts `ApifyActor`. -/
structure ApifyActor where
  id : String
  name : String
  title : String
  description : Option String := none
  isPublic : Bool := true
  username : String := ""
  createdAt : String := ""
  modifiedAt : String := ""
  stats : ActorStats := ⟨0⟩
deriving DecidableEq

/-- The owned/accessible merge stage of `listActors` (apify.ts lines 89–106):
seed `allActors` with the owned items when that branch responded ok, then, when
the accessible branch responded ok, append those of its items whose `id` is not
in the `existingIds` set computed from the owned seed. -/
def mergeOwnedAccessible (owned accessible : FetchResult (List ApifyActor)) :
    List ApifyActor :=
  let allActors : List ApifyActor :=
    match owned with
    | .ok items => items
    | _ => []
  let additionalActors : List ApifyActor :=
    match accessible with
    | .ok items =>
      let existingIds := allActors.map (fun actor => actor.id)
      items.filter (fun actor => !(existingIds.contains actor.id))
    | _ => []
  allActors ++ additionalActors

/-- The fixed curated list of well-known actor ids (apify.ts lines 109–113).
Note the last two entries are `username/name` slugs, not raw actor ids. -/
def popularActors : List String :=
  ["nwua9Gu5YrADL7ZDj", "apify/web-scraper", "apify/google-search-results-scraper"]

/-- The curated-actor enrichment loop of `listActors` (apify.ts lines 115–132):
for each curated id, recompute `existingIds` from the list built so far; if the
curated id string is not among the present actors' `id` fields, fetch it; push
the fetched actor detail on `response.ok`, and silently skip on a non-ok
response or a thrown exception (the per-item try/catch). -/
def addCurated (lookup : String → FetchResult ApifyActor) :
    List ApifyActor → List String → List ApifyActor
  | allActors, [] => allActors
  | allActors, actorId :: rest =>
    let existingIds := allActors.map (fun actor => actor.id)
    if existingIds.contains actorId then
      addCurated lookup allActors rest
    else
      match lookup actorId with
      | .ok actorData => addCurated lookup (allActors ++ [actorData]) rest
      | _ => addCurated lookup allActors rest

/-- The `ListActorsResponse` envelope together with the HTTP status the handler
sets on it (200 for `res.json` with no explicit status). -/
structure ListActorsResponse where
  actors : List ApifyActor
  error : Option String
  status : Nat
deriving DecidableEq

/-- The `listActors` handler (apify.ts lines 66–146) after the credential
check, as a function of the three upstream outcomes.  `Promise.all` rejects as
soon as either listing fetch throws, landing in the outer catch (500, generic
message); if both listings respond non-ok the error envelope carries the owned
(`my=true`) branch's status; otherwise the merged and curated list is returned
with no error. -/
def listActors (owned accessible : FetchResult (List ApifyActor))
    (lookup : String → FetchResult ApifyActor) : ListActorsResponse :=
  match owned, accessible with
  | .exc, _ => ⟨[], some "Failed to fetch actors from Apify", 500⟩
  | _, .exc => ⟨[], some "Failed to fetch actors from Apify", 500⟩
  | .notOk s, .notOk _ =>
    ⟨[], some ("Failed to fetch actors: " ++ toString s), s⟩
  | _, _ =>
    ⟨addCurated lookup (mergeOwnedAccessible owned accessible) popularActors,
      none, 200⟩

/-- The `items` object of an array-typed schema property. -/
structure ItemsSpec where
  type : String
deriving DecidableEq

/-- A schema property (shared/api.ts `Record<string, any>` entries, with the
fields actually written by apify.ts). -/
structure Property where
  title : Option String := none
  type : Option String := none
  description : Option String := none
  format : Option String := none
  default : Option JVal := none
  «example» : Option JVal := none
  enum : Option (List JVal) := none
  minimum : Option Int := none
  items : Option ItemsSpec := none
  readOnly : Option Bool := none

/-- An input schema (shared/api.ts `ApifyInputSchema`); `properties` is an
insertion-ordered association list, as JS object keys are. -/
structure ApifyInputSchema where
  title : String
  type : String
  description : Option String := none
  properties : List (String × Property)
  required : Option (List String) := none

/-- A version entry of an actor detail (shared/api.ts `ApifyActorVersion`). -/
structure ApifyActorVersion where
  versionNumber : String
  buildTag : String := ""
  inputSchema : Option ApifyInputSchema := none

/-- A build record, of which the schema resolver reads only `inputSchema`. -/
structure ApifyBuild where
  inputSchema : Option ApifyInputSchema := none

/-- The `taggedBuilds.latest` entry of an actor detail. -/
structure TaggedBuild where
  buildId : String
  buildNumber : String := ""

/-- The `taggedBuilds` object of an actor detail. -/
structure TaggedBuilds where
  latest : Option TaggedBuild := none

/-- One entry of `pricingInfos`. -/
structure PricingInfo where
  pricePerUnitUsd : Int
  trialMinutes : Int

/-- The `exampleRunInput` object of an actor detail; `body` is the raw JSON
text to be parsed. -/
structure ExampleRunInput where
  body : String

/-- The actor detail payload (shared/api.ts `ApifyActorDetailResponse.data`):
the actor record extended with versions, tagged builds, example input, pricing
and categories. -/
structure ApifyActorDetail where
  id : String
  name : String
  title : String
  description : Option String := none
  isPublic : Bool := true
  username : String := ""
  versions : List ApifyActorVersion := []
  taggedBuilds : Option TaggedBuilds := none
  exampleRunInput : Option ExampleRunInput := none
  pricingInfos : Option (List PricingInfo) := none
  categories : Option (List String) := none

/-- JavaScript truthiness fallback `s || fb` for strings: the empty string is
falsy. -/
def jsOr (s fb : String) : String :=
  if s = "" then fb else s

/-- JavaScript truthiness fallback for an optional string field: both a missing
field and an empty string fall back. -/
def jsOrOpt (s : Option String) (fb : String) : String :=
  match s with
  | some v => jsOr v fb
  | none => fb

/-- JS `key.charAt(0).toUpperCase() + key.slice(1)`. -/
def capitalize (key : String) : String :=
  match key.data with
  | [] => ""
  | c :: cs => String.mk (c.toUpper :: cs)

/-- The per-key property synthesis of the example-derived schema (apify.ts
lines 367–391).  The `typeof` chain maps each `JVal` constructor as follows:
a string takes the `typeof value === "string"` branch (with the `textarea`
format hint when its length exceeds 50), a number the `"number"` branch, a
boolean the `"boolean"` branch, an array the `Array.isArray` branch, and both
a nested object and `null` the `typeof value === "object"` branch — in
JavaScript `typeof null === "object"` and `Array.isArray(null)` is false.  The
source's trailing `else` (type `"string"`) is unreachable for any value
produced by `JSON.parse` and so has no arm here. -/
def synthProperty (key : String) (value : JVal) : Property :=
  let property : Property :=
    { title := some (capitalize key),
      description := some ("Input parameter: " ++ key) }
  match value with
  | .str s =>
    if s.length > 50 then
      { property with type := some "string", format := some "textarea" }
    else
      { property with type := some "string" }
  | .num _ => { property with type := some "number" }
  | .bool _ => { property with type := some "boolean" }
  | .arr _ => { property with type := some "array" }
  | .obj _ => { property with type := some "object" }
  | .null => { property with type := some "object" }

/-- The type name the source's `typeof`-chain assigns to each kind of JSON
value (null lands in the `typeof value === "object"` branch). -/
def jsInferredType : JVal → String
  | .str _ => "string"
  | .num _ => "number"
  | .bool _ => "boolean"
  | .arr _ => "array"
  | .obj _ => "object"
  | .null => "object"

/-- The example-derived schema (apify.ts lines 359–391): title and description
fall back from the actor detail, `type` is `"object"`, one synthesized property
per entry of the parsed example in iteration order, and no `required` field. -/
def schemaFromExample (d : ApifyActorDetail) (entries : List (String × JVal)) :
    ApifyInputSchema :=
  { title := jsOr d.title "Actor Input",
    type := "object",
    description := some (jsOrOpt d.description "Input parameters for this actor"),
    properties := entries.map (fun e => (e.1, synthProperty e.1 e.2)),
    required := none }

/-- The static predefined schema for the Google Maps Scraper
(`nwua9Gu5YrADL7ZDj`), apify.ts lines 403–516, transcribed field by field. -/
def googleMapsSchema : ApifyInputSchema :=
  { title := "Google Maps Scraper",
    type := "object",
    description := some "Extract business listings from Google Maps",
    properties :=
      [("searchQuery",
        { title := some "ðŸ” Search Query",
          type := some "string",
          description := some "Type what you\x27d normally search for in the Google Maps search bar, like English breakfast or pet shelter. Aim for unique terms for faster processing.",
          «example» := some (.str "restaurants") }),
       ("locationQuery",
        { title := some "ðŸ“ Location",
          type := some "string",
          description := some "Define location using free text. Simpler formats work best; e.g., use City + Country rather than City + Country + State.",
          «example» := some (.str "New York, USA") }),
       ("maxCrawledPlacesPerSearch",
        { title := some "ðŸ’¯ Number of places to extract",
          type := some "integer",
          description := some "Number of results you expect to get per each Search term. The higher the number, the longer it will take.",
          «example» := some (.num 100),
          minimum := some 1 }),
       ("language",
        { title := some "ðŸŒ Language",
          type := some "string",
          description := some "Results details will show in this language",
          default := some (.str "en"),
          enum := some [.str "en", .str "es", .str "fr", .str "de", .str "it",
            .str "pt", .str "ru", .str "ja", .str "ko", .str "zh-CN"],
          «example» := some (.str "en") }),
       ("categoryFilterWords",
        { title := some "ðŸŽ¢ Place categories ($)",
          type := some "array",
          description := some "You can limit the places that are scraped based on the Category filter",
          items := some ⟨"string"⟩,
          «example» := some (.arr [.str "restaurant", .str "cafe", .str "bar"]) }),
       ("searchMatching",
        { title := some "Get exact name matches ($)",
          type := some "string",
          description := some "Restrict what places are scraped based on matching their name with provided Search term",
          enum := some [.str "all", .str "only_includes", .str "only_exact"],
          default := some (.str "all") }),
       ("placeMinimumStars",
        { title := some "Set a minimum star rating ($)",
          type := some "string",
          description := some "Scrape only places with a rating equal to or above the selected stars",
          enum := some [.str "", .str "two", .str "twoAndHalf", .str "three",
            .str "threeAndHalf", .str "four", .str "fourAndHalf"],
          default := some (.str "") }),
       ("website",
        { title := some "Scrape places with/without a website ($)",
          type := some "string",
          description := some "Use this to exclude places without a website, or vice versa",
          enum := some [.str "allPlaces", .str "withWebsite", .str "withoutWebsite"],
          default := some (.str "allPlaces") }),
       ("skipClosedPlaces",
        { title := some "â© Skip closed places ($)",
          type := some "boolean",
          description := some "Skip places that are marked as temporary or permanently closed",
          default := some (.bool false) }),
       ("scrapePlaceDetailPage",
        { title := some "Scrape place detail page ($)",
          type := some "boolean",
          description := some "Scrape detail pages of each place the Actor finds. This will slow down the Actor since it needs to open another page for each place individually.",
          default := some (.bool false) }),
       ("maxReviews",
        { title := some "Number of reviews to extract ($)",
          type := some "integer",
          description := some "Set the number of reviews you expect to get per place",
          default := some (.num 0),
          minimum := some 0 }),
       ("maxImages",
        { title := some "Number of additional images to extract ($)",
          type := some "integer",
          description := some "Set the number of images per place you expect to scrape",
          default := some (.num 0),
          minimum := some 0 }),
       ("countryCode",
        { title := some "ðŸ—º Country",
          type := some "string",
          description := some "Set the country where the data extraction should be carried out",
          enum := some [.str "", .str "us", .str "gb", .str "ca", .str "au",
            .str "de", .str "fr", .str "es", .str "it", .str "br", .str "mx",
            .str "in", .str "jp"],
          default := some (.str "") }),
       ("city",
        { title := some "ðŸŒ‡ City",
          type := some "string",
          description := some "Enter the city where the data extraction should be carried out",
          «example» := some (.str "Pittsburgh") }),
       ("state",
        { title := some "State",
          type := some "string",
          description := some "Set a state where the data extraction should be carried out (mainly for US addresses)",
          «example» := some (.str "Massachusetts") }),
       ("postalCode",
        { title := some "Postal code",
          type := some "string",
          description := some "Set the postal code of the area where the data extraction should be carried out",
          «example» := some (.str "10001") })],
    required := some [] }

/-- JS `Math.round(t / 60)` for a (non-negative) integer minute count `t`:
round-half-up of the exact quotient. -/
def roundTrialHours (t : Int) : Int :=
  (2 * t + 60) / 120

/-- The final-fallback schema synthesized from actor metadata (apify.ts lines
520–567): conventional `keywords`/`location` fields when the actor declares the
`JOBS` category, always a generic textarea `input` field whose description
folds in pricing/trial facts, and for a paid actor a read-only `_pricing_info`
property.  (The source's interpolation `Input data for X. Y` leaves a trailing
space after the period when `Y` is empty; that is reproduced here.) -/
def fallbackSchema (d : ApifyActorDetail) : ApifyInputSchema :=
  let firstPricing : Option PricingInfo :=
    match d.pricingInfos with
    | some (p :: _) => some p
    | _ => none
  let jobsProps : List (String × Property) :=
    if (match d.categories with
        | some cs => cs.contains "JOBS"
        | none => false) then
      [("keywords",
        { title := some "Keywords",
          type := some "array",
          description := some "Job search keywords",
          items := some ⟨"string"⟩ }),
       ("location",
        { title := some "Location",
          type := some "string",
          description := some "Job location or region" })]
    else []
  let inputDesc : String :=
    "Input data for " ++ jsOr d.title "this actor" ++ ". " ++
      (match firstPricing with
       | some p =>
         "This is a paid actor" ++
           (if p.trialMinutes > 0 then
             " with " ++ toString (roundTrialHours p.trialMinutes) ++
               " hours of trial time"
           else "") ++ "."
       | none => "")
  let pricingProps : List (String × Property) :=
    match firstPricing with
    | some p =>
      [("_pricing_info",
        { title := some "Pricing Information",
          type := some "string",
          description := some ("This actor costs $" ++ toString p.pricePerUnitUsd ++
            "/month" ++
            (if p.trialMinutes > 0 then
              " with " ++ toString (roundTrialHours p.trialMinutes) ++
                " hours free trial"
            else "")),
          readOnly := some true })]
    | none => []
  { title := jsOr d.title "Actor Input",
    type := "object",
    description := some (jsOrOpt d.description "Input parameters for this actor"),
    properties := jobsProps ++
      [("input",
        { title := some "Input Data",
          type := some "string",
          format := some "textarea",
          description := some inputDesc })] ++ pricingProps,
    required := some [] }

/-- The upstream outcomes `getActorSchema` can observe: the actor detail fetch,
the dedicated versions listing (`?limit=1&desc=true`), the tagged-build detail
fetch (payload `data?.inputSchema`), the builds listing, and the result of
`JSON.parse` + `Object.entries` on an example-input body (`none` models a parse
failure / non-object, `some` the parsed entry list). -/
structure SchemaEnv where
  detail : FetchResult ApifyActorDetail
  versionsQ : FetchResult (List ApifyActorVersion)
  buildDetailQ : FetchResult (Option ApifyInputSchema)
  buildsQ : FetchResult (List ApifyBuild)
  parseJson : String → Option (List (String × JVal))

/-- The `GetActorSchemaResponse` envelope plus the HTTP status set on it. -/
structure GetActorSchemaResponse where
  schema : Option ApifyInputSchema
  error : Option String
  status : Nat

/-- The `getActorSchema` handler (apify.ts lines 233–584) after the
credential/id checks.  Only the actor-detail fetch is a hard failure (non-ok
status propagated; a thrown fetch lands in the outer catch as a 500).  The
probes then run in source order, each later probe only when `schema` is still
null, each guarded fetch treated as "no result" on non-ok status or exception:
embedded schema of `versions[0]`, versions endpoint, tagged-latest build
detail, builds endpoint, example-input synthesis, the static override for
`nwua9Gu5YrADL7ZDj`, and the metadata fallback (which always produces a
schema). -/
def getActorSchema (actorId : String) (env : SchemaEnv) : GetActorSchemaResponse :=
  match env.detail with
  | .exc => ⟨none, some "Failed to fetch actor schema from Apify", 500⟩
  | .notOk s => ⟨none, some ("Failed to fetch actor details: " ++ toString s), s⟩
  | .ok d =>
    let s1 : Option ApifyInputSchema :=
      match d.versions with
      | v :: _ => v.inputSchema
      | [] => none
    let s2 : Option ApifyInputSchema :=
      match s1 with
      | some s => some s
      | none =>
        match env.versionsQ with
        | .ok (v :: _) => v.inputSchema
        | _ => none
    let s3 : Option ApifyInputSchema :=
      match s2 with
      | some s => some s
      | none =>
        match d.taggedBuilds with
        | some tb =>
          match tb.latest with
          | some _ =>
            (match env.buildDetailQ with
             | .ok os => os
             | _ => none)
          | none => none
        | none => none
    let s4 : Option ApifyInputSchema :=
      match s3 with
      | some s => some s
      | none =>
        match env.buildsQ with
        | .ok (b :: _) => b.inputSchema
        | _ => none
    let s5 : Option ApifyInputSchema :=
      match s4 with
      | some s => some s
      | none =>
        match d.exampleRunInput with
        | some ex =>
          if ex.body = "" then none
          else
            match env.parseJson ex.body with
            | some entries => some (schemaFromExample d entries)
            | none => none
        | none => none
    let s6 : Option ApifyInputSchema :=
      match s5 with
      | some s => some s
      | none =>
        if actorId = "nwua9Gu5YrADL7ZDj" then some googleMapsSchema else none
    let s7 : Option ApifyInputSchema :=
      match s6 with
      | some s => some s
      | none => some (fallbackSchema d)
    ⟨s7, none, 200⟩

/-- Run lifecycle statuses (shared/api.ts; `TIMED_OUT` renders the source's
`"TIMED-OUT"`). -/
inductive RunStatus where
  | READY | RUNNING | SUCCEEDED | FAILED | TIMED_OUT | ABORTED
deriving DecidableEq

/-- A run record (shared/api.ts `ApifyRun`; the `stats`/`options`/`meta`
payload fields are never read by the server code and are omitted from the
model). -/
structure ApifyRun where
  id : String
  actId : String
  status : RunStatus
  startedAt : String := ""
  finishedAt : Option String := none
deriving DecidableEq

/-- The poll ceiling, in milliseconds (apify.ts line 632). -/
def maxWaitTime : Nat := 60000

/-- The fixed sleep between polls, in milliseconds (apify.ts line 633). -/
def pollInterval : Nat := 2000

/-- Number of loop iterations the ceiling admits under the idealized clock
(each iteration advances elapsed time by exactly `pollInterval`, so the guard
`Date.now() - startTime < maxWaitTime` holds iff fewer than 30 iterations have
completed). -/
def maxPollIterations : Nat := maxWaitTime / pollInterval

/-- The poll loop of `executeActor` (apify.ts lines 639–659).  `poll i` is the
outcome of the `i`-th status fetch; `i` counts polls issued so far and the fuel
argument counts iterations the time ceiling still admits.  A non-ok status
response leaves `finalRun` unchanged and continues; a thrown fetch propagates
to the handler's outer catch, modelled as `.error` carrying the number of polls
issued; exiting normally yields the last observed run and the poll count. -/
def pollLoop (poll : Nat → FetchResult ApifyRun) :
    ApifyRun → Nat → Nat → Except Nat (ApifyRun × Nat)
  | finalRun, i, 0 => .ok (finalRun, i)
  | finalRun, i, n + 1 =>
    if finalRun.status = RunStatus.RUNNING then
      match poll i with
      | .exc => .error (i + 1)
      | .notOk _ => pollLoop poll finalRun (i + 1) n
      | .ok r => pollLoop poll r (i + 1) n
    else
      .ok (finalRun, i)

/-- The `ExecuteActorResponse` envelope; `run := none` models the `{} as any`
placeholder of the error envelopes, and `results := none` the omitted
(`undefined`) results field. -/
structure ExecuteActorResponse where
  run : Option ApifyRun
  results : Option (List JVal)
  error : Option String

/-- The envelope together with the handler's observable effect counts: the
HTTP status, the number of status polls issued and the number of dataset-items
fetches attempted. -/
structure ExecTrace where
  response : ExecuteActorResponse
  httpStatus : Nat
  pollCount : Nat
  datasetFetchCount : Nat

/-- The `executeActor` handler (apify.ts lines 609–696) after the
credential/id checks, as a function of the submit outcome, the poll outcomes
and the dataset-items outcome.  A non-ok submit aborts with its status; a
thrown submit or poll fetch lands in the outer catch (500, generic message);
after the loop, the dataset is fetched exactly once iff the final status is
`SUCCEEDED`, with both a non-ok response and a thrown fetch swallowed (the
inner try/catch), and the `results` field is set iff the fetched item list is
non-empty. -/
def executeActor (submit : FetchResult ApifyRun)
    (poll : Nat → FetchResult ApifyRun)
    (dataset : FetchResult (List JVal)) : ExecTrace :=
  match submit with
  | .exc =>
    ⟨⟨none, none, some "Failed to execute actor"⟩, 500, 0, 0⟩
  | .notOk s =>
    ⟨⟨none, none, some ("Failed to start actor run: " ++ toString s)⟩, s, 0, 0⟩
  | .ok run =>
    match pollLoop poll run 0 maxPollIterations with
    | .error k =>
      ⟨⟨none, none, some "Failed to execute actor"⟩, 500, k, 0⟩
    | .ok (finalRun, k) =>
      if finalRun.status = RunStatus.SUCCEEDED then
        match dataset with
        | .ok results =>
          ⟨⟨some finalRun, if results.length > 0 then some results else none,
            none⟩, 200, k, 1⟩
        | _ =>
          ⟨⟨some finalRun, none, none⟩, 200, k, 1⟩
      else
        ⟨⟨some finalRun, none, none⟩, 200, k, 0⟩

/-! Concrete records used by witnesses and counterexamples. -/

/-- A small concrete actor with id `A`. -/
def actorA : ApifyActor := { id := "A", name := "actor-a", title := "Actor A" }

/-- A small concrete actor with id `B`. -/
def actorB : ApifyActor := { id := "B", name := "actor-b", title := "Actor B" }

/-- A small concrete actor with id `C`. -/
def actorC : ApifyActor := { id := "C", name := "actor-c", title := "Actor C" }

/-- The `apify/web-scraper` actor under its real actor id: the catalog lists it
by id while the curated table addresses it by its `username/name` slug. -/
def wsActor : ApifyActor :=
  { id := "moJRLRc85AitArpNN", name := "web-scraper", title := "Web Scraper",
    username := "apify" }

/-- A curated-lookup environment in which only the `apify/web-scraper` slug
resolves, to the same actor the owned listing already returned by id. -/
def wsLookup : String → FetchResult ApifyActor :=
  fun actorId =>
    if actorId = "apify/web-scraper" then .ok wsActor else .notOk 404

/-- A small embedded input schema used as the version-carried schema `S`. -/
def testSchema : ApifyInputSchema :=
  { title := "My Schema", type := "object",
    properties := [("query", { type := some "string" })],
    required := some [] }

/-- An actor detail whose most recent version embeds `testSchema`. -/
def detailWithVersionSchema : ApifyActorDetail :=
  { id := "nwua9Gu5YrADL7ZDj", name := "crawler-google-places",
    title := "Google Maps Scraper",
    versions := [{ versionNumber := "0.0", buildTag := "latest",
                   inputSchema := some testSchema }] }

/-- A schema environment where only the detail fetch succeeds and its latest
version embeds `testSchema`; every other probe's fetch fails. -/
def envVersionSchema : SchemaEnv :=
  { detail := .ok detailWithVersionSchema,
    versionsQ := .notOk 404,
    buildDetailQ := .notOk 404,
    buildsQ := .notOk 404,
    parseJson := fun _ => none }

/-- A concrete run in status `READY`. -/
def readyRun : ApifyRun := { id := "run1", actId := "act1", status := .READY }

/-- A concrete run in status `RUNNING`. -/
def runningRun : ApifyRun := { id := "run1", actId := "act1", status := .RUNNING }

/-- A concrete run in status `SUCCEEDED`. -/
def succeededRun : ApifyRun :=
  { id := "run1", actId := "act1", status := .SUCCEEDED,
    finishedAt := some "t1" }

/-- A poll schedule that observes `RUNNING` once and then `SUCCEEDED`. -/
def pollRunThenSucceed : Nat → FetchResult ApifyRun :=
  fun i => if i = 0 then .ok runningRun else .ok succeededRun

/-- A poll schedule whose every fetch returns a non-ok status. -/
def pollAllNotOk : Nat → FetchResult ApifyRun := fun _ => .notOk 500

/-- A poll schedule whose every fetch observes a still-`RUNNING` run. -/
def pollAllRunning : Nat → FetchResult ApifyRun := fun _ => .ok runningRun

/-- A poll schedule whose every fetch throws. -/
def pollExc : Nat → FetchResult ApifyRun := fun _ => .exc

/-- A curated-lookup environment in which every lookup responds non-ok. -/
def lookupAllFail : String → FetchResult ApifyActor := fun _ => .notOk 404

/-! Helper lemmas shared by the claim theorems. -/

/-- The owned/accessible merge on two ok listings is the owned list followed by
the accessible items whose id is not among the owned ids. -/
theorem mergeOwnedAccessible_ok_ok (owned accessible : List ApifyActor) :
    mergeOwnedAccessible (.ok owned) (.ok accessible) =
      owned ++ accessible.filter
        (fun a => decide (a.id ∉ owned.map ApifyActor.id)) := by
  show owned ++ accessible.filter
      (fun actor => !((owned.map ApifyActor.id).contains actor.id)) =
    owned ++ accessible.filter
      (fun a => decide (a.id ∉ owned.map ApifyActor.id))
  congr 1
  apply List.filter_congr
  intro a _
  rw [show (owned.map ApifyActor.id).contains a.id =
      (owned.map ApifyActor.id).elem a.id from rfl, List.elem_eq_mem]
  by_cases h : a.id ∈ owned.map ApifyActor.id
  · simp [h]
  · simp [h]

/-- When no curated lookup returns an ok response, the enrichment loop leaves
the list unchanged. -/
theorem addCurated_allFail (lookup : String → FetchResult ApifyActor)
    (h : ∀ i, (lookup i).isOk = false) :
    ∀ (ids : List String) (acc : List ApifyActor),
      addCurated lookup acc ids = acc := by
  intro ids
  induction ids with
  | nil => intro acc; rfl
  | cons i rest ih =>
    intro acc
    show (if (acc.map (fun actor => actor.id)).contains i then
            addCurated lookup acc rest
          else
            match lookup i with
            | .ok actorData => addCurated lookup (acc ++ [actorData]) rest
            | _ => addCurated lookup acc rest) = acc
    by_cases hc : (acc.map (fun actor => actor.id)).contains i = true
    · rw [if_pos hc]
      exact ih acc
    · rw [if_neg hc]
      cases hl : lookup i with
      | ok a =>
        have hi := h i
        rw [hl] at hi
        simp [FetchResult.isOk] at hi
      | notOk s => exact ih acc
      | exc => exact ih acc

/-- With zero fuel the poll loop returns the current run unchanged. -/
theorem pollLoop_zero (poll : Nat → FetchResult ApifyRun) (r : ApifyRun)
    (i : Nat) : pollLoop poll r i 0 = .ok (r, i) := rfl

/-- A non-`RUNNING` status exits the loop at once. -/
theorem pollLoop_exit (poll : Nat → FetchResult ApifyRun) (r : ApifyRun)
    (i n : Nat) (h : r.status ≠ RunStatus.RUNNING) :
    pollLoop poll r i (n + 1) = .ok (r, i) := by
  simp [pollLoop, h]

/-- An ok poll replaces the observed run and continues. -/
theorem pollLoop_step_ok (poll : Nat → FetchResult ApifyRun) (r r' : ApifyRun)
    (i n : Nat) (h : r.status = RunStatus.RUNNING) (hp : poll i = .ok r') :
    pollLoop poll r i (n + 1) = pollLoop poll r' (i + 1) n := by
  simp [pollLoop, h, hp]

/-- A non-ok poll response leaves the observed run unchanged and continues. -/
theorem pollLoop_step_notOk (poll : Nat → FetchResult ApifyRun) (r : ApifyRun)
    (i n s : Nat) (h : r.status = RunStatus.RUNNING)
    (hp : poll i = .notOk s) :
    pollLoop poll r i (n + 1) = pollLoop poll r (i + 1) n := by
  simp [pollLoop, h, hp]

/-- A thrown poll fetch escapes the loop as an exception. -/
theorem pollLoop_step_exc (poll : Nat → FetchResult ApifyRun) (r : ApifyRun)
    (i n : Nat) (h : r.status = RunStatus.RUNNING) (hp : poll i = .exc) :
    pollLoop poll r i (n + 1) = .error (i + 1) := by
  simp [pollLoop, h, hp]

/-- If no poll fetch ever throws, the loop terminates normally. -/
theorem pollLoop_no_exc (poll : Nat → FetchResult ApifyRun)
    (h : ∀ j, poll j ≠ .exc) :
    ∀ (n : Nat) (r : ApifyRun) (i : Nat),
      ∃ fr k, pollLoop poll r i n = .ok (fr, k) := by
  intro n
  induction n with
  | zero => intro r i; exact ⟨r, i, rfl⟩
  | succ n ih =>
    intro r i
    by_cases hr : r.status = RunStatus.RUNNING
    · cases hp : poll i with
      | exc => exact absurd hp (h i)
      | notOk s =>
        rw [pollLoop_step_notOk poll r i n s hr hp]
        exact ih r (i + 1)
      | ok r' =>
        rw [pollLoop_step_ok poll r r' i n hr hp]
        exact ih r' (i + 1)
    · exact ⟨r, i, pollLoop_exit poll r i n hr⟩

/-! Claim theorems. -/

/-- C1 (code bug): evaluated at its failing input, the merged catalog contains
two entries with equal `id`.  The owned listing already holds the
`apify/web-scraper` actor under its real id `moJRLRc85AitArpNN`; the curated
loop checks the curated *request string* `"apify/web-scraper"` against the
present ids, misses, fetches the same actor through its slug and appends it, so
the claimed all-ids-distinct invariant (and the claimed skip of an
already-present id) fails while the call still succeeds. -/
theorem listActors_curated_slug_duplicate :
    (listActors (.ok [wsActor]) (.ok []) wsLookup).actors.map ApifyActor.id =
      ["moJRLRc85AitArpNN", "moJRLRc85AitArpNN"] ∧
    (listActors (.ok [wsActor]) (.ok []) wsLookup).error = none :=
  ⟨rfl, rfl⟩

/-- C2 (counterexample): a run submitted in status `READY` is never polled at
all — the loop guard requires status `RUNNING` — so even with polls that would
observe `RUNNING` then `SUCCEEDED` and a non-empty dataset available, the
executor performs zero dataset fetches and returns no results, contradicting
the claim's "fetches the dataset exactly once and returns a non-empty result
sequence". -/
theorem executeActor_ready_never_polled_cex :
    (executeActor (.ok readyRun) pollRunThenSucceed
        (.ok [JVal.null])).datasetFetchCount = 0 ∧
    (executeActor (.ok readyRun) pollRunThenSucceed
        (.ok [JVal.null])).response.results = none ∧
    (executeActor (.ok readyRun) pollRunThenSucceed
        (.ok [JVal.null])).pollCount = 0 :=
  ⟨rfl, rfl, rfl⟩

/-- C2 (amended): a run submitted in status `RUNNING` whose polls observe
`RUNNING` and then `SUCCEEDED` (two polls, within the claimed three iterations)
triggers exactly one dataset fetch, and when that fetch succeeds with a
non-empty item list the response carries exactly that list together with the
final succeeded run. -/
theorem executeActor_running_to_succeeded (submit : FetchResult ApifyRun)
    (poll : Nat → FetchResult ApifyRun) (ds : FetchResult (List JVal))
    (r0 r1 r2 : ApifyRun) (items : List JVal)
    (hs : submit = .ok r0) (h0 : r0.status = RunStatus.RUNNING)
    (hp0 : poll 0 = .ok r1) (h1 : r1.status = RunStatus.RUNNING)
    (hp1 : poll 1 = .ok r2) (h2 : r2.status = RunStatus.SUCCEEDED)
    (hds : ds = .ok items) (hne : items ≠ []) :
    (executeActor submit poll ds).datasetFetchCount = 1 ∧
    (executeActor submit poll ds).response.results = some items ∧
    (executeActor submit poll ds).response.run = some r2 ∧
    (executeActor submit poll ds).pollCount = 2 := by
  subst hs
  subst hds
  have hloop : pollLoop poll r0 0 maxPollIterations = .ok (r2, 2) := by
    have e30 : maxPollIterations = 29 + 1 := rfl
    have e29 : (29 : Nat) = 28 + 1 := rfl
    have e28 : (28 : Nat) = 27 + 1 := rfl
    rw [e30, pollLoop_step_ok poll r0 r1 0 29 h0 hp0, e29,
      pollLoop_step_ok poll r1 r2 1 28 h1 hp1, e28,
      pollLoop_exit poll r2 2 27 (by rw [h2]; intro hcon; cases hcon)]
  have hlen : items.length > 0 := List.length_pos.mpr hne
  simp [executeActor, hloop, h2, hlen]

/-- C2 (witness): the amended theorem at a concrete two-poll trace with a
one-item dataset. -/
theorem executeActor_running_to_succeeded_witness :
    (executeActor (.ok runningRun) pollRunThenSucceed
        (.ok [JVal.null])).datasetFetchCount = 1 ∧
    (executeActor (.ok runningRun) pollRunThenSucceed
        (.ok [JVal.null])).response.results = some [JVal.null] ∧
    (executeActor (.ok runningRun) pollRunThenSucceed
        (.ok [JVal.null])).response.run = some succeededRun ∧
    (executeActor (.ok runningRun) pollRunThenSucceed
        (.ok [JVal.null])).pollCount = 2 :=
  executeActor_running_to_succeeded (.ok runningRun) pollRunThenSucceed
    (.ok [JVal.null]) runningRun runningRun succeededRun [JVal.null]
    rfl rfl rfl rfl rfl rfl rfl (List.cons_ne_nil _ _)

/-- C3 (counterexample): if the owned listing itself contains two entries with
the same id, the merge keeps both, so "each id appearing exactly once" fails
for raw successful listing responses. -/
theorem mergeOwnedAccessible_dup_source_cex :
    mergeOwnedAccessible (.ok [actorA, actorA]) (.ok []) = [actorA, actorA] ∧
    ¬ (((mergeOwnedAccessible (.ok [actorA, actorA])
        (.ok [])).map ApifyActor.id).Nodup) :=
  ⟨rfl, by decide⟩

/-- C3 (amended): for successful owned and accessible listings whose item
lists each carry pairwise-distinct ids, the merge is the owned items in order
followed by exactly the accessible items whose id is not among the owned ids,
in order, and every id occurs at most once in the result. -/
theorem mergeOwnedAccessible_ordered_dedup (owned accessible : List ApifyActor)
    (h1 : (owned.map ApifyActor.id).Nodup)
    (h2 : (accessible.map ApifyActor.id).Nodup) :
    mergeOwnedAccessible (.ok owned) (.ok accessible) =
      owned ++ accessible.filter
        (fun a => decide (a.id ∉ owned.map ApifyActor.id)) ∧
    ((mergeOwnedAccessible (.ok owned)
        (.ok accessible)).map ApifyActor.id).Nodup := by
  refine ⟨mergeOwnedAccessible_ok_ok owned accessible, ?_⟩
  rw [mergeOwnedAccessible_ok_ok owned accessible, List.map_append,
    List.nodup_append]
  refine ⟨h1, ?_, ?_⟩
  · exact ((List.filter_sublist accessible).map ApifyActor.id).nodup h2
  · intro x hx hx'
    obtain ⟨a, haf, rfl⟩ := List.mem_map.mp hx'
    obtain ⟨-, hp⟩ := List.mem_filter.mp haf
    exact (of_decide_eq_true hp) hx

/-- C3 (witness): the spec's example, owned = [A, B], accessible = [B, C],
merges to [A, B, C] with pairwise-distinct ids. -/
theorem mergeOwnedAccessible_ordered_dedup_witness :
    mergeOwnedAccessible (.ok [actorA, actorB]) (.ok [actorB, actorC]) =
      [actorA, actorB, actorC] ∧
    ((mergeOwnedAccessible (.ok [actorA, actorB])
        (.ok [actorB, actorC])).map ApifyActor.id).Nodup :=
  mergeOwnedAccessible_ordered_dedup [actorA, actorB] [actorB, actorC]
    (by decide) (by decide)

/-- C4 (counterexample): a thrown owned-listing fetch rejects the whole
`Promise.all`, so the call returns an error envelope (generic message, status
500) although the accessible listing succeeded — refuting "error envelope if
and only if both listing queries fail" and "carries the owned failure's
status". -/
theorem listActors_exception_error_cex :
    (listActors .exc (.ok []) wsLookup).error =
      some "Failed to fetch actors from Apify" ∧
    (FetchResult.ok ([] : List ApifyActor)).isNotOk = false :=
  ⟨rfl, rfl⟩

/-- C4 (amended): as long as neither listing fetch throws, the call returns an
error envelope iff both listings respond non-ok, in which case the envelope
carries the owned failure's status; and whenever every curated lookup fails
(non-ok or thrown), the returned list is exactly the owned+accessible union. -/
theorem listActors_error_envelope (owned accessible : FetchResult (List ApifyActor))
    (lookup : String → FetchResult ApifyActor)
    (ho : owned ≠ .exc) (ha : accessible ≠ .exc) :
    ((listActors owned accessible lookup).error = none ↔
      ¬(owned.isNotOk = true ∧ accessible.isNotOk = true)) ∧
    (∀ s t, owned = .notOk s → accessible = .notOk t →
      (listActors owned accessible lookup).error =
        some ("Failed to fetch actors: " ++ toString s) ∧
      (listActors owned accessible lookup).status = s) ∧
    ((∀ i, (lookup i).isOk = false) →
      (listActors owned accessible lookup).actors =
        mergeOwnedAccessible owned accessible) := by
  cases owned with
  | exc => exact absurd rfl ho
  | notOk s =>
    cases accessible with
    | exc => exact absurd rfl ha
    | notOk t =>
      refine ⟨by simp [listActors, FetchResult.isNotOk], ?_, ?_⟩
      · intro s' t' hs ht
        cases hs
        exact ⟨rfl, rfl⟩
      · intro hl
        show ([] : List ApifyActor) = mergeOwnedAccessible (.notOk s) (.notOk t)
        rfl
    | ok l2 =>
      refine ⟨by simp [listActors, FetchResult.isNotOk], ?_, ?_⟩
      · intro s' t' hs ht
        exact absurd ht (by simp)
      · intro hl
        exact addCurated_allFail lookup hl popularActors _
  | ok l1 =>
    cases accessible with
    | exc => exact absurd rfl ha
    | notOk t =>
      refine ⟨by simp [listActors, FetchResult.isNotOk], ?_, ?_⟩
      · intro s' t' hs ht
        exact absurd hs (by simp)
      · intro hl
        exact addCurated_allFail lookup hl popularActors _
    | ok l2 =>
      refine ⟨by simp [listActors, FetchResult.isNotOk], ?_, ?_⟩
      · intro s' t' hs ht
        exact absurd hs (by simp)
      · intro hl
        exact addCurated_allFail lookup hl popularActors _

/-- C4 (witness): the amended theorem at a concrete input where both listings
respond non-ok and every curated lookup fails: the error envelope is present
and carries the owned status, and the list is the (empty) union. -/
theorem listActors_error_envelope_witness :
    ((listActors (FetchResult.notOk 403) (FetchResult.notOk 401)
        lookupAllFail).error = none ↔
      ¬((FetchResult.notOk 403 : FetchResult (List ApifyActor)).isNotOk = true ∧
        (FetchResult.notOk 401 : FetchResult (List ApifyActor)).isNotOk = true)) ∧
    (listActors (FetchResult.notOk 403) (FetchResult.notOk 401)
        lookupAllFail).error = some "Failed to fetch actors: 403" ∧
    (listActors (FetchResult.notOk 403) (FetchResult.notOk 401)
        lookupAllFail).status = 403 ∧
    (listActors (FetchResult.notOk 403) (FetchResult.notOk 401)
        lookupAllFail).actors =
      mergeOwnedAccessible (FetchResult.notOk 403) (FetchResult.notOk 401) := by
  have h := listActors_error_envelope (FetchResult.notOk 403)
    (FetchResult.notOk 401) lookupAllFail (by simp) (by simp)
  refine ⟨h.1, (h.2.1 403 401 rfl rfl).1, (h.2.1 403 401 rfl rfl).2,
    h.2.2 (fun i => rfl)⟩

/-- C5 (confirmed): when the actor detail succeeds and its most recent version
entry embeds a schema `S`, the resolver returns exactly `S` with no error,
whatever the other probe outcomes and whatever the actor id — in particular
also for the id the static-override table covers. -/
theorem getActorSchema_version_precedence (actorId : String) (env : SchemaEnv)
    (d : ApifyActorDetail) (v : ApifyActorVersion)
    (vs : List ApifyActorVersion) (S : ApifyInputSchema)
    (hd : env.detail = .ok d) (hv : d.versions = v :: vs)
    (hsch : v.inputSchema = some S) :
    (getActorSchema actorId env).schema = some S ∧
    (getActorSchema actorId env).error = none := by
  simp [getActorSchema, hd, hv, hsch]

/-- C5 (witness): a detail whose latest version embeds `testSchema`, queried
under the static-override id `nwua9Gu5YrADL7ZDj`: the embedded schema, not the
override, is returned. -/
theorem getActorSchema_version_precedence_witness :
    (getActorSchema "nwua9Gu5YrADL7ZDj" envVersionSchema).schema =
      some testSchema ∧
    (getActorSchema "nwua9Gu5YrADL7ZDj" envVersionSchema).error = none :=
  getActorSchema_version_precedence "nwua9Gu5YrADL7ZDj" envVersionSchema
    detailWithVersionSchema
    { versionNumber := "0.0", buildTag := "latest",
      inputSchema := some testSchema }
    [] testSchema rfl rfl rfl

/-- C6 (counterexample): the example-derived property for a `null` value has
type `object`, not the claimed `string` — in JavaScript `typeof null` is
`"object"`, so `null` takes the object branch of the inference chain. -/
theorem synthProperty_null_cex :
    (synthProperty "k" JVal.null).type = some "object" ∧
    (synthProperty "k" JVal.null).type ≠ some "string" :=
  ⟨rfl, by decide⟩

/-- C6 (amended): the example-derived property types are `string` for strings
(with the `textarea` multi-line hint exactly when the string is longer than 50
characters), `number` for numbers, `boolean` for booleans, `array` for
sequences, and `object` both for nested records and for `null` (JS `typeof
null` is `"object"`); no other JSON value exists. -/
theorem synthProperty_type_inference (key : String) (value : JVal) :
    (synthProperty key value).type = some (jsInferredType value) ∧
    ((synthProperty key value).format = some "textarea" ↔
      ∃ s, value = JVal.str s ∧ s.length > 50) := by
  cases value with
  | str s =>
    by_cases h : s.length > 50 <;>
      simp [synthProperty, jsInferredType, h]
  | num n => simp [synthProperty, jsInferredType]
  | bool b => simp [synthProperty, jsInferredType]
  | arr l => simp [synthProperty, jsInferredType]
  | obj l => simp [synthProperty, jsInferredType]
  | null => simp [synthProperty, jsInferredType]

/-- C7 (confirmed): when the poll loop exits with the run still `RUNNING`
(the only way that happens is the ceiling elapsing), the executor returns a
success envelope carrying that last observed run, with no error, no results
and no dataset fetch. -/
theorem executeActor_ceiling_success (submit : FetchResult ApifyRun)
    (poll : Nat → FetchResult ApifyRun) (ds : FetchResult (List JVal))
    (r0 fr : ApifyRun) (k : Nat)
    (hs : submit = .ok r0)
    (hp : pollLoop poll r0 0 maxPollIterations = .ok (fr, k))
    (hr : fr.status = RunStatus.RUNNING) :
    (executeActor submit poll ds).response.run = some fr ∧
    (executeActor submit poll ds).response.error = none ∧
    (executeActor submit poll ds).response.results = none ∧
    (executeActor submit poll ds).datasetFetchCount = 0 := by
  subst hs
  have hne : fr.status ≠ RunStatus.SUCCEEDED := by
    rw [hr]
    intro hcon
    cases hcon
  simp [executeActor, hp, hne]

/-- C7 (witness): with every poll observing a still-running run, all 30
admitted iterations elapse and the executor returns the running run as a
success with no dataset fetch. -/
theorem executeActor_ceiling_success_witness :
    (executeActor (.ok runningRun) pollAllRunning
        (.notOk 404)).response.run = some runningRun ∧
    (executeActor (.ok runningRun) pollAllRunning
        (.notOk 404)).response.error = none ∧
    (executeActor (.ok runningRun) pollAllRunning
        (.notOk 404)).response.results = none ∧
    (executeActor (.ok runningRun) pollAllRunning
        (.notOk 404)).datasetFetchCount = 0 :=
  executeActor_ceiling_success (.ok runningRun) pollAllRunning (.notOk 404)
    runningRun runningRun 30 rfl rfl rfl

/-- C8 (counterexample): a poll fetch that throws is *not* ignored: the
exception escapes the loop (there is no per-poll try/catch) into the handler's
outer catch, and the whole call aborts with a generic error envelope instead
of continuing. -/
theorem executeActor_poll_exception_cex :
    (executeActor (.ok runningRun) pollExc (.ok [JVal.null])).response.error =
      some "Failed to execute actor" ∧
    (executeActor (.ok runningRun) pollExc (.ok [JVal.null])).response.run =
      none :=
  ⟨rfl, rfl⟩

/-- C8 (amended): a poll attempt answered with a non-success status is ignored
— the previously observed run is retained and the loop continues — and, absent
thrown poll fetches, the overall call never returns an error envelope; a poll
fetch that throws, however, aborts the call through the outer catch. -/
theorem executeActor_poll_failure (pollA pollB pollC : Nat → FetchResult ApifyRun)
    (r r0 : ApifyRun) (i n s : Nat) (submit : FetchResult ApifyRun)
    (ds : FetchResult (List JVal)) :
    (r.status = RunStatus.RUNNING → pollA i = .notOk s →
      pollLoop pollA r i (n + 1) = pollLoop pollA r (i + 1) n) ∧
    (r.status = RunStatus.RUNNING → pollB i = .exc →
      pollLoop pollB r i (n + 1) = .error (i + 1)) ∧
    (submit = .ok r0 → (∀ j, pollC j ≠ .exc) →
      (executeActor submit pollC ds).response.error = none) := by
  refine ⟨fun h hp => pollLoop_step_notOk pollA r i n s h hp,
    fun h hp => pollLoop_step_exc pollB r i n h hp, ?_⟩
  intro hs hno
  subst hs
  obtain ⟨fr, k, hloop⟩ := pollLoop_no_exc pollC hno maxPollIterations r0 0
  by_cases hfr : fr.status = RunStatus.SUCCEEDED <;> cases ds <;>
    simp [executeActor, hloop, hfr]

/-- C8 (witness): the amended theorem at concrete schedules — a non-ok poll
continues the loop with the run retained, an all-throwing schedule produces
the loop exception, and an exception-free schedule yields an error-free
envelope. -/
theorem executeActor_poll_failure_witness :
    pollLoop pollAllNotOk runningRun 0 30 =
      pollLoop pollAllNotOk runningRun 1 29 ∧
    pollLoop pollExc runningRun 0 30 = .error 1 ∧
    (executeActor (.ok runningRun) pollAllNotOk
        (.notOk 404)).response.error = none :=
  ⟨(executeActor_poll_failure pollAllNotOk pollExc pollAllNotOk runningRun
      runningRun 0 29 500 (.ok runningRun) (.notOk 404)).1 rfl rfl,
   (executeActor_poll_failure pollAllNotOk pollExc pollAllNotOk runningRun
      runningRun 0 29 500 (.ok runningRun) (.notOk 404)).2.1 rfl rfl,
   (executeActor_poll_failure pollAllNotOk pollExc pollAllNotOk runningRun
      runningRun 0 29 500 (.ok runningRun) (.notOk 404)).2.2 rfl
     (fun _ h => FetchResult.noConfusion h)⟩

/-- C9 (confirmed): for a run whose final status is `SUCCEEDED`, the `results`
field equals the fetched item list exactly when that list is non-empty, and is
absent both when the fetched list is empty and when the dataset fetch fails
(non-ok or thrown). -/
theorem executeActor_results_iff_nonempty (submit : FetchResult ApifyRun)
    (poll : Nat → FetchResult ApifyRun) (ds : FetchResult (List JVal))
    (r0 fr : ApifyRun) (k : Nat)
    (hs : submit = .ok r0)
    (hp : pollLoop poll r0 0 maxPollIterations = .ok (fr, k))
    (hr : fr.status = RunStatus.SUCCEEDED) :
    (executeActor submit poll ds).response.results =
      (match ds with
       | .ok items => if items.length > 0 then some items else none
       | _ => none) := by
  subst hs
  cases ds <;> simp [executeActor, hp, hr]

/-- C9 (witness): a succeeded run whose dataset fetch returns the empty list
yields an absent `results` field. -/
theorem executeActor_results_iff_nonempty_witness :
    (executeActor (.ok succeededRun) pollAllNotOk
        (.ok ([] : List JVal))).response.results = none :=
  executeActor_results_iff_nonempty (.ok succeededRun) pollAllNotOk
    (.ok ([] : List JVal)) succeededRun succeededRun 0 rfl rfl rfl

/-- C10 (confirmed): a submitted run whose initial status is anything but
`RUNNING` (including the non-terminal `READY`) is never polled: the loop body
runs zero times, the initial run is the final run of the response, and a
dataset fetch is attempted exactly when that initial status is already
`SUCCEEDED`. -/
theorem executeActor_initial_nonrunning (submit : FetchResult ApifyRun)
    (poll : Nat → FetchResult ApifyRun) (ds : FetchResult (List JVal))
    (r0 : ApifyRun)
    (hs : submit = .ok r0) (hr : r0.status ≠ RunStatus.RUNNING) :
    (executeActor submit poll ds).pollCount = 0 ∧
    (executeActor submit poll ds).response.run = some r0 ∧
    (executeActor submit poll ds).datasetFetchCount =
      (if r0.status = RunStatus.SUCCEEDED then 1 else 0) ∧
    (executeActor submit poll ds).response.error = none := by
  subst hs
  have hp : pollLoop poll r0 0 maxPollIterations = .ok (r0, 0) := by
    have e30 : maxPollIterations = 29 + 1 := rfl
    rw [e30, pollLoop_exit poll r0 0 29 hr]
  by_cases hsuc : r0.status = RunStatus.SUCCEEDED <;> cases ds <;>
    simp [executeActor, hp, hsuc]

/-- C10 (witness): a run submitted in status `READY`, with polls available
that would observe progress, is returned untouched with zero polls and zero
dataset fetches. -/
theorem executeActor_initial_nonrunning_witness :
    (executeActor (.ok readyRun) pollAllRunning
        (.ok [JVal.null])).pollCount = 0 ∧
    (executeActor (.ok readyRun) pollAllRunning
        (.ok [JVal.null])).response.run = some readyRun ∧
    (executeActor (.ok readyRun) pollAllRunning
        (.ok [JVal.null])).datasetFetchCount = 0 ∧
    (executeActor (.ok readyRun) pollAllRunning
        (.ok [JVal.null])).response.error = none :=
  executeActor_initial_nonrunning (.ok readyRun) pollAllRunning
    (.ok [JVal.null]) readyRun rfl (by decide)

end Spark
